import Mathlib

/-!
Verification of the redis-cloud Python binding (`redis_cloud` package).

The repository contains a thin Python adapter (`redis_cloud/__init__.py`)
and its test suite; the client logic itself (credential resolution,
transport, pagination, dual sync/async execution) lives in a native core
that is not part of the visible sources.  Definitions taken from the
visible sources are noted as such; definitions of the missing core are
marked `Modelled from the spec:` and follow the specification text.
-/

namespace RedisCloud

/-! ## Environment and errors -/

/-- A process environment: an association of variable names to values. -/
abbrev Env := List (String × String)

/-- Modelled from the spec: the error taxonomy of the core
(`ConfigurationError`, `TransportError`, `HttpError`, `PaginationError`,
`DeserializationError`), all surfaced through the single public error
type. -/
inductive CloudError where
  | configurationError (msg : String)
  | transportError (msg : String)
  | httpError (status : Nat) (body : String)
  | paginationError (msg : String)
  | deserializationError (msg : String)
deriving DecidableEq, Repr

/-- The human-readable message carried by an error. -/
def CloudError.message : CloudError → String
  | .configurationError m => m
  | .transportError m => m
  | .httpError _ b => b
  | .paginationError m => m
  | .deserializationError m => m

/-! ## Credential resolver (spec section 4.1)

The resolver reads the process environment and nothing else.  To state
the frame property (it does not mutate the environment) the resolver is
written in a small state monad over `Env` whose only primitive reads a
variable. -/

/-- A computation that may observe and transform the environment. -/
def EnvM (α : Type) := Env → α × Env

/-- Lift a value into `EnvM`. -/
def EnvM.pure {α : Type} (a : α) : EnvM α := fun env => (a, env)

/-- Sequence two `EnvM` computations. -/
def EnvM.bind {α β : Type} (m : EnvM α) (f : α → EnvM β) : EnvM β :=
  fun env =>
    let r := m env
    f r.1 r.2

/-- Modelled from the spec: read one environment variable; an unset or
empty variable counts as absent, because the resolver takes the first
non-empty match. -/
def getVar (name : String) : EnvM (Option String) :=
  fun env =>
    (match env.lookup name with
     | some v => if v = "" then none else some v
     | none => none,
     env)

/-- Modelled from the spec: try the given variable names in priority
order and return the first non-empty value. -/
def firstNonEmpty : List String → EnvM (Option String)
  | [] => EnvM.pure none
  | n :: rest =>
      EnvM.bind (getVar n) fun v =>
        match v with
        | some s => EnvM.pure (some s)
        | none => firstNonEmpty rest

/-- The key-name environment variables, in priority order
(spec section 6). -/
def keyVarNames : List String :=
  ["REDIS_CLOUD_API_KEY", "REDIS_CLOUD_ACCOUNT_KEY", "REDIS_CLOUD_USER_KEY"]

/-- The secret-name environment variables, in priority order
(spec section 6). -/
def secretVarNames : List String :=
  ["REDIS_CLOUD_API_SECRET", "REDIS_CLOUD_SECRET_KEY", "REDIS_CLOUD_USER_KEY"]

/-- A resolved credential pair. -/
structure Credentials where
  api_key : String
  api_secret : String
deriving DecidableEq, Repr

/-- Modelled from the spec: `fromEnvironment()` credential resolution.
Resolve the key from the key-name variables, failing with
`ConfigurationError` "API key not found" when none matches; then resolve
the secret from the secret-name variables, failing with
`ConfigurationError` "API secret not found" when none matches, even
though a key was found. -/
def fromEnvM : EnvM (Except CloudError Credentials) :=
  EnvM.bind (firstNonEmpty keyVarNames) fun key =>
    match key with
    | none => EnvM.pure (.error (.configurationError "API key not found"))
    | some k =>
        EnvM.bind (firstNonEmpty secretVarNames) fun secret =>
          match secret with
          | none => EnvM.pure (.error (.configurationError "API secret not found"))
          | some s => EnvM.pure (.ok ⟨k, s⟩)

/-- The result of `CloudClient.from_env()` on a given environment. -/
def from_env (env : Env) : Except CloudError Credentials :=
  (fromEnvM env).1

/-! ## Client construction (spec sections 3, 6) -/

/-- Modelled from the spec: the positive default timeout chosen by the
underlying client when none is configured. -/
def defaultTimeoutSecs : ℚ := 30

/-- Modelled from the spec: the default base URL applied when none is
configured. -/
def defaultBaseUrl : String := "https://api.redislabs.com/v1"

/-- Modelled from the spec: the client record, immutable after
construction: resolved credentials, base URL and timeout in seconds. -/
structure CloudClient where
  api_key : String
  api_secret : String
  base_url : String
  timeout : ℚ
deriving DecidableEq, Repr

/-- Modelled from the spec: the explicit constructor
`new(apiKey, apiSecret, baseUrl?, timeoutSeconds?)`; absent options fall
back to the defaults. -/
def CloudClient.new (api_key api_secret : String)
    (base_url : Option String) (timeout_secs : Option ℚ) : CloudClient :=
  { api_key := api_key
    api_secret := api_secret
    base_url := base_url.getD defaultBaseUrl
    timeout := timeout_secs.getD defaultTimeoutSecs }

/-! ## Pagination engine (spec section 4.4) -/

/-- One page of a collection response: its items and the continuation
cursor, whose absence signals the last page. -/
structure Page where
  items : List String
  cursor : Option String
deriving DecidableEq, Repr

/-- Modelled from the spec: the pagination engine over a mocked sequence
of server responses.  It consumes one response per request, concatenates
the items in server order, counts the requests issued, stops when the
cursor is absent, and fails with `PaginationError` when the cursor did
not change between two consecutive pages.  Running out of mocked
responses while a cursor is still pending is a transport failure. -/
def runPagination : List Page → Option String → Except CloudError (List String × Nat)
  | [], _ => .error (.transportError "connection failed: no response")
  | p :: rest, prev =>
      match p.cursor with
      | none => .ok (p.items, 1)
      | some c =>
          if prev = some c then
            .error (.paginationError "pagination cursor did not advance")
          else
            match runPagination rest (some c) with
            | .ok (items, n) => .ok (p.items ++ items, n + 1)
            | .error e => .error e

/-- The number of requests the pagination engine issues on a mocked
response sequence: one per consumed response, stopping where the engine
stops (last page reached, cursor unchanged, or responses exhausted). -/
def paginationRequests : List Page → Option String → Nat
  | [], _ => 0
  | p :: rest, prev =>
      match p.cursor with
      | none => 1
      | some c =>
          if prev = some c then 1 else paginationRequests rest (some c) + 1

/-! ## Dual execution adapter (spec section 4.6)

A suspending computation is modelled as a tree of suspension points; the
blocking form of an operation runs the suspending form to completion. -/

/-- A suspending computation: either finished, or suspended awaiting the
scheduler. -/
inductive Async (α : Type) where
  | done (a : α)
  | suspend (k : Unit → Async α)

/-- Run a suspending computation to completion on the calling thread. -/
def Async.run {α : Type} : Async α → α
  | .done a => a
  | .suspend k => (k ()).run

/-- Map a function over the result of a suspending computation. -/
def Async.map {α β : Type} (f : α → β) : Async α → Async β
  | .done a => .done (f a)
  | .suspend k => .suspend fun u => (k u).map f

/-- Modelled from the spec: the suspending pagination engine; it suspends
once per page fetch and otherwise computes exactly as `runPagination`. -/
def runPaginationAsync : List Page → Option String → Async (Except CloudError (List String × Nat))
  | [], _ => .suspend fun _ => .done (.error (.transportError "connection failed: no response"))
  | p :: rest, prev =>
      .suspend fun _ =>
        match p.cursor with
        | none => .done (.ok (p.items, 1))
        | some c =>
            if prev = some c then
              .done (.error (.paginationError "pagination cursor did not advance"))
            else
              (runPaginationAsync rest (some c)).map
                (Except.map fun r => (p.items ++ r.1, r.2 + 1))

/-- The operations of the resource facade and the raw verbs
(spec section 6); each exists in a blocking and a suspending form. -/
inductive Operation where
  | subscriptions
  | subscription (id : Nat)
  | databases (subId : Nat)
  | database (subId : Nat) (dbId : Nat)
  | all_databases (subId : Nat)
  | account
  | get (path : String)
  | post (path : String) (body : String)
  | delete (path : String)
deriving DecidableEq, Repr

/-- An HTTP request: method, path and optional body. -/
structure Request where
  method : String
  path : String
  body : Option String
deriving DecidableEq, Repr

/-- Modelled from the spec: the shared request-building logic used by
both execution forms of every operation. -/
def buildRequest : Operation → Request
  | .subscriptions => ⟨"GET", "/subscriptions", none⟩
  | .subscription id => ⟨"GET", "/subscriptions/" ++ toString id, none⟩
  | .databases subId => ⟨"GET", "/subscriptions/" ++ toString subId ++ "/databases", none⟩
  | .database subId dbId =>
      ⟨"GET", "/subscriptions/" ++ toString subId ++ "/databases/" ++ toString dbId, none⟩
  | .all_databases subId => ⟨"GET", "/subscriptions/" ++ toString subId ++ "/databases", none⟩
  | .account => ⟨"GET", "/", none⟩
  | .get path => ⟨"GET", path, none⟩
  | .post path body => ⟨"POST", path, some body⟩
  | .delete path => ⟨"DELETE", path, none⟩

/-- A mocked server: a fixed answer per single request, and a fixed page
sequence for paginated collection fetches. -/
structure Server where
  respond : Request → Except CloudError String
  pages : List Page

/-- The result of one client operation. -/
inductive OpResult where
  | raw (body : String)
  | collection (items : List String) (requests : Nat)
deriving DecidableEq, Repr

/-- Modelled from the spec: the blocking form of each operation.  The
paginated helper drives the pagination engine; every other operation
issues its single built request. -/
def runOpSync (srv : Server) (o : Operation) : Except CloudError OpResult :=
  match o with
  | .all_databases _ =>
      (runPagination srv.pages none).map fun r => .collection r.1 r.2
  | _ => (srv.respond (buildRequest o)).map .raw

/-- Modelled from the spec: the suspending form of each operation,
delegating to the same request building and response handling as the
blocking form, with a suspension point per network fetch. -/
def runOpAsync (srv : Server) (o : Operation) : Async (Except CloudError OpResult) :=
  match o with
  | .all_databases _ =>
      (runPaginationAsync srv.pages none).map
        (Except.map fun r => .collection r.1 r.2)
  | _ => .suspend fun _ => .done ((srv.respond (buildRequest o)).map .raw)

/-! ## Module exports (`redis_cloud/__init__.py`) -/

/-- The `__all__` list of the `redis_cloud` package, from
`redis_cloud/__init__.py`. -/
def moduleAll : List String := ["CloudClient", "RedisCloudError", "__version__"]

/-- Modelled from the spec: which exported names are error classes;
`RedisCloudError` is the only one. -/
def isErrorClassExport : String → Bool
  | "RedisCloudError" => true
  | _ => false

/-- The kind of value bound to an exported name. -/
inductive PyValueKind where
  | classKind
  | stringKind
deriving DecidableEq, Repr

/-- Modelled from the spec: the kinds of the names the package binds:
two classes and the version string; any other name is not part of the
public surface. -/
def exportKind (n : String) : Option PyValueKind :=
  if n = "CloudClient" then some .classKind
  else if n = "RedisCloudError" then some .classKind
  else if n = "__version__" then some .stringKind
  else none

/-- The shape of a Python exception class: its name, whether it derives
from the base `Exception` type, and its required and optional fields. -/
structure PyExceptionClass where
  name : String
  subclassOfException : Bool
  requiredFields : List String
  optionalFields : List String
deriving DecidableEq, Repr

/-- Modelled from the spec: the `RedisCloudError` class defined in the
native core — a subclass of `Exception` carrying a `.message` field and
an optional `.status` field. -/
def redisCloudErrorClass : PyExceptionClass :=
  { name := "RedisCloudError"
    subclassOfException := true
    requiredFields := ["message"]
    optionalFields := ["status"] }

/-! ## Helper lemmas -/

/-- Looking up the variable names one by one leaves the environment
unchanged. -/
theorem firstNonEmpty_env (names : List String) (env : Env) :
    (firstNonEmpty names env).2 = env := by
  induction names generalizing env with
  | nil => rfl
  | cons n rest ih =>
      simp only [firstNonEmpty, EnvM.bind, getVar]
      cases h : env.lookup n with
      | none => simpa using ih env
      | some v =>
          by_cases hv : v = "" <;> simp [hv, EnvM.pure, ih]

/-- Running a mapped suspending computation maps its result. -/
theorem Async.run_map {α β : Type} (f : α → β) (a : Async α) :
    (a.map f).run = f a.run := by
  induction a with
  | done a => rfl
  | suspend k ih => simpa [Async.map, Async.run] using ih ()

/-- The suspending pagination engine computes exactly what the blocking
engine computes. -/
theorem runPaginationAsync_run (rs : List Page) (prev : Option String) :
    (runPaginationAsync rs prev).run = runPagination rs prev := by
  induction rs generalizing prev with
  | nil => rfl
  | cons p rest ih =>
      simp only [runPaginationAsync, runPagination, Async.run]
      cases p.cursor with
      | none => rfl
      | some c =>
          by_cases hc : prev = some c
          · simp [hc, Async.run]
          · simp only [hc, if_false]
            rw [Async.run_map, ih]
            cases hres : runPagination rest (some c) with
            | ok r => cases r; simp [Except.map]
            | error e => simp [Except.map]

/-- The blocking pagination engine issues at most one request per mocked
response. -/
theorem runPagination_requests_le (rs : List Page) (prev : Option String)
    (items : List String) (n : Nat) (h : runPagination rs prev = .ok (items, n)) :
    n ≤ rs.length := by
  induction rs generalizing prev items n with
  | nil => simp [runPagination] at h
  | cons p rest ih =>
      obtain ⟨pitems, pcursor⟩ := p
      simp only [runPagination] at h
      cases pcursor with
      | none =>
          simp only [Except.ok.injEq, Prod.mk.injEq] at h
          simp [← h.2]
      | some c =>
          by_cases hp : prev = some c
          · simp [hp] at h
          · simp only [hp, if_false] at h
            cases hr : runPagination rest (some c) with
            | ok r =>
                obtain ⟨its, m⟩ := r
                rw [hr] at h
                simp only [Except.ok.injEq, Prod.mk.injEq] at h
                have hm := ih (some c) its m hr
                simp only [List.length_cons, ← h.2]
                omega
            | error e => rw [hr] at h; simp at h

/-- On a successful run the request counter agrees with the request
count reported by the engine. -/
theorem paginationRequests_of_ok (rs : List Page) (prev : Option String)
    (items : List String) (n : Nat) (h : runPagination rs prev = .ok (items, n)) :
    paginationRequests rs prev = n := by
  induction rs generalizing prev items n with
  | nil => simp [runPagination] at h
  | cons p rest ih =>
      obtain ⟨pitems, pcursor⟩ := p
      simp only [runPagination, paginationRequests] at h ⊢
      cases pcursor with
      | none =>
          simp only [Except.ok.injEq, Prod.mk.injEq] at h
          exact h.2
      | some c =>
          by_cases hp : prev = some c
          · simp [hp] at h
          · simp only [hp, if_false] at h ⊢
            cases hr : runPagination rest (some c) with
            | ok r =>
                obtain ⟨its, m⟩ := r
                rw [hr] at h
                simp only [Except.ok.injEq, Prod.mk.injEq] at h
                rw [ih (some c) its m hr]
                exact h.2
            | error e => rw [hr] at h; simp at h

/-! ## Claim theorems -/

/-- C1: for every environment in which none of the key-name variables
(REDIS_CLOUD_API_KEY, REDIS_CLOUD_ACCOUNT_KEY, REDIS_CLOUD_USER_KEY) is
set and no explicit key is given, `CloudClient.from_env()` fails with a
`ConfigurationError` whose message is exactly "API key not found" (and
hence contains it). -/
theorem from_env_missing_api_key (env : Env)
    (h : ∀ n ∈ keyVarNames, env.lookup n = none) :
    from_env env = .error (.configurationError "API key not found") := by
  have h1 : env.lookup "REDIS_CLOUD_API_KEY" = none := h _ (by simp [keyVarNames])
  have h2 : env.lookup "REDIS_CLOUD_ACCOUNT_KEY" = none := h _ (by simp [keyVarNames])
  have h3 : env.lookup "REDIS_CLOUD_USER_KEY" = none := h _ (by simp [keyVarNames])
  simp [from_env, fromEnvM, EnvM.bind, EnvM.pure, firstNonEmpty, getVar,
    keyVarNames, h1, h2, h3]

/-- C1 witness: the empty environment has no key-name variable set, and
resolution fails with the configuration error. -/
theorem from_env_missing_api_key_witness :
    from_env [] = .error (.configurationError "API key not found") :=
  from_env_missing_api_key [] (by decide)

/-- C2: for every environment in which a key was found among the
key-name variables but none of the secret-name variables
(REDIS_CLOUD_API_SECRET, REDIS_CLOUD_SECRET_KEY, REDIS_CLOUD_USER_KEY)
is set, `CloudClient.from_env()` fails with a `ConfigurationError` whose
message is exactly "API secret not found". -/
theorem from_env_missing_api_secret (env : Env) (k : String)
    (hk : (firstNonEmpty keyVarNames env).1 = some k)
    (hs : ∀ n ∈ secretVarNames, env.lookup n = none) :
    from_env env = .error (.configurationError "API secret not found") := by
  have hpair : firstNonEmpty keyVarNames env = (some k, env) :=
    Prod.ext hk (firstNonEmpty_env keyVarNames env)
  have h1 : env.lookup "REDIS_CLOUD_API_SECRET" = none := hs _ (by simp [secretVarNames])
  have h2 : env.lookup "REDIS_CLOUD_SECRET_KEY" = none := hs _ (by simp [secretVarNames])
  have h3 : env.lookup "REDIS_CLOUD_USER_KEY" = none := hs _ (by simp [secretVarNames])
  unfold from_env fromEnvM
  simp only [EnvM.bind]
  rw [hpair]
  simp [firstNonEmpty, getVar, EnvM.bind, EnvM.pure, secretVarNames, h1, h2, h3]

/-- C2 witness: with only REDIS_CLOUD_API_KEY set, the key is found and
resolution still fails over the missing secret. -/
theorem from_env_missing_api_secret_witness :
    from_env [("REDIS_CLOUD_API_KEY", "test-key")] =
      .error (.configurationError "API secret not found") :=
  from_env_missing_api_secret [("REDIS_CLOUD_API_KEY", "test-key")] "test-key"
    (by decide) (by decide)

/-- C3: for every environment where the alternate variables
REDIS_CLOUD_ACCOUNT_KEY and REDIS_CLOUD_SECRET_KEY hold non-empty values
and the primary names are unset, `CloudClient.from_env()` succeeds with
those values, identical to resolving the same values supplied under the
primary names REDIS_CLOUD_API_KEY and REDIS_CLOUD_API_SECRET. -/
theorem from_env_alternate_names (env : Env) (k s : String)
    (hknz : k ≠ "") (hsnz : s ≠ "")
    (h1 : env.lookup "REDIS_CLOUD_API_KEY" = none)
    (h2 : env.lookup "REDIS_CLOUD_ACCOUNT_KEY" = some k)
    (h3 : env.lookup "REDIS_CLOUD_API_SECRET" = none)
    (h4 : env.lookup "REDIS_CLOUD_SECRET_KEY" = some s) :
    from_env env = .ok ⟨k, s⟩ ∧
    from_env [("REDIS_CLOUD_API_KEY", k), ("REDIS_CLOUD_API_SECRET", s)] = .ok ⟨k, s⟩ := by
  constructor
  · simp [from_env, fromEnvM, EnvM.bind, EnvM.pure, firstNonEmpty, getVar,
      keyVarNames, secretVarNames, h1, h2, h3, h4, hknz, hsnz]
  · simp [from_env, fromEnvM, EnvM.bind, EnvM.pure, firstNonEmpty, getVar,
      keyVarNames, secretVarNames, List.lookup, hknz, hsnz]

/-- C3 witness: the alternate names resolve the test credentials, and so
do the primary names with the same values. -/
theorem from_env_alternate_names_witness :
    from_env [("REDIS_CLOUD_ACCOUNT_KEY", "test-key"), ("REDIS_CLOUD_SECRET_KEY", "test-secret")] =
      .ok ⟨"test-key", "test-secret"⟩ ∧
    from_env [("REDIS_CLOUD_API_KEY", "test-key"), ("REDIS_CLOUD_API_SECRET", "test-secret")] =
      .ok ⟨"test-key", "test-secret"⟩ :=
  from_env_alternate_names
    [("REDIS_CLOUD_ACCOUNT_KEY", "test-key"), ("REDIS_CLOUD_SECRET_KEY", "test-secret")]
    "test-key" "test-secret" (by decide) (by decide) (by decide) (by decide)
    (by decide) (by decide)

/-- C4: for every pair of non-empty key and secret strings and every
positive configured timeout option, construction succeeds (the
constructor is total) and the timeout property is positive, equal to the
configured value when one was passed and to the positive default
otherwise. -/
theorem client_timeout (key secret : String) (ts : Option ℚ)
    (hk : key ≠ "") (hs : secret ≠ "")
    (hts : ∀ t, ts = some t → 0 < t) :
    0 < (CloudClient.new key secret none ts).timeout ∧
    (∀ t, ts = some t → (CloudClient.new key secret none ts).timeout = t) ∧
    (ts = none → (CloudClient.new key secret none ts).timeout = defaultTimeoutSecs) := by
  cases ts with
  | none =>
      refine ⟨?_, ?_, fun _ => rfl⟩
      · simp [CloudClient.new, defaultTimeoutSecs]
      · intro t ht; cases ht
  | some t =>
      refine ⟨?_, ?_, ?_⟩
      · simpa [CloudClient.new] using hts t rfl
      · intro u hu
        cases hu
        rfl
      · intro hnone; cases hnone

/-- C4 witness: the test credentials with a configured timeout of 60
seconds yield a client whose timeout property is 60. -/
theorem client_timeout_witness :
    0 < (CloudClient.new "test-key" "test-secret" none (some 60)).timeout ∧
    (∀ t, (some (60 : ℚ)) = some t →
      (CloudClient.new "test-key" "test-secret" none (some 60)).timeout = t) ∧
    ((some (60 : ℚ)) = none →
      (CloudClient.new "test-key" "test-secret" none (some 60)).timeout = defaultTimeoutSecs) :=
  client_timeout "test-key" "test-secret" (some 60) (by decide) (by decide)
    (by intro t ht; cases ht; norm_num)

/-- C5: for a server answering a collection request with a 3-page
sequence whose continuation cursors are [c1, c2, none] (with c1 and c2
distinct, as the cursors of a genuine 3-page sequence are) and whose
per-page item counts are [2, 2, 1], the paginated all_databases
operation returns exactly the 5 items in original cross-page order and
issues exactly 3 requests. -/
theorem all_databases_pagination (c1 c2 : String) (p1 p2 p3 : List String)
    (resp : Request → Except CloudError String) (subId : Nat)
    (hc : c1 ≠ c2) (h1 : p1.length = 2) (h2 : p2.length = 2) (h3 : p3.length = 1) :
    runOpSync ⟨resp, [⟨p1, some c1⟩, ⟨p2, some c2⟩, ⟨p3, none⟩]⟩ (.all_databases subId) =
      .ok (.collection (p1 ++ p2 ++ p3) 3) ∧
    (p1 ++ p2 ++ p3).length = 5 := by
  constructor
  · simp [runOpSync, runPagination, hc, Except.map, List.append_assoc]
  · simp [h1, h2, h3]

/-- C5 witness: a concrete mocked 3-page sequence with item counts
[2, 2, 1] yields the 5 items in order through 3 requests. -/
theorem all_databases_pagination_witness :
    runOpSync
      ⟨fun _ => .error (.transportError "unmocked"),
        [⟨["a", "b"], some "cursor-1"⟩, ⟨["c", "d"], some "cursor-2"⟩, ⟨["e"], none⟩]⟩
      (.all_databases 1) =
      .ok (.collection (["a", "b"] ++ ["c", "d"] ++ ["e"]) 3) ∧
    ((["a", "b"] ++ ["c", "d"] ++ ["e"] : List String)).length = 5 :=
  all_databases_pagination "cursor-1" "cursor-2" ["a", "b"] ["c", "d"] ["e"]
    (fun _ => .error (.transportError "unmocked")) 1
    (by decide) (by decide) (by decide) (by decide)

/-- C6: whenever the server returns the same continuation cursor on two
consecutive pages (the page fetched with previous cursor distinct from c
returns cursor c, and the next page returns c again), the pagination
engine raises `PaginationError` rather than issuing requests
indefinitely: whatever further pages the server would serve, exactly 2
requests are issued.  The engine's request loop is well-founded: it
consumes one mocked response per request. -/
theorem pagination_duplicate_cursor (prev : Option String) (c : String)
    (i1 i2 : List String) (rest : List Page) (h : prev ≠ some c) :
    runPagination (⟨i1, some c⟩ :: ⟨i2, some c⟩ :: rest) prev =
      .error (.paginationError "pagination cursor did not advance") ∧
    paginationRequests (⟨i1, some c⟩ :: ⟨i2, some c⟩ :: rest) prev = 2 := by
  constructor
  · simp [runPagination, h]
  · simp [paginationRequests, h]

/-- C6 witness: a mocked sequence repeating cursor c1 twice in a row
raises the pagination error after exactly 2 requests. -/
theorem pagination_duplicate_cursor_witness :
    runPagination [⟨["a"], some "c1"⟩, ⟨["b"], some "c1"⟩] none =
      .error (.paginationError "pagination cursor did not advance") ∧
    paginationRequests [⟨["a"], some "c1"⟩, ⟨["b"], some "c1"⟩] none = 2 :=
  pagination_duplicate_cursor none "c1" ["a"] ["b"] [] (by decide)

/-- C7: for every operation of the client — subscriptions, subscription,
databases, database, all_databases, account, get, post and delete — and
every fixed mocked server, the blocking form and the suspending form of
the operation return structurally equal results. -/
theorem sync_async_equivalence (srv : Server) (o : Operation) :
    (runOpAsync srv o).run = runOpSync srv o := by
  cases o with
  | all_databases subId =>
      simp only [runOpAsync, runOpSync]
      rw [Async.run_map, runPaginationAsync_run]
  | subscriptions => rfl
  | subscription id => rfl
  | databases subId => rfl
  | database subId dbId => rfl
  | account => rfl
  | get path => rfl
  | post path body => rfl
  | delete path => rfl

/-- C8: the module exports exactly one public error class,
RedisCloudError, which subclasses the base Exception type and carries a
message field and an optional status field. -/
theorem error_export :
    moduleAll.filter isErrorClassExport = ["RedisCloudError"] ∧
    redisCloudErrorClass.name = "RedisCloudError" ∧
    redisCloudErrorClass.subclassOfException = true ∧
    "message" ∈ redisCloudErrorClass.requiredFields ∧
    "status" ∈ redisCloudErrorClass.optionalFields := by
  decide

/-- C9: credential resolution only reads the process environment and
leaves it unchanged: for every starting environment, the environment
after running the resolver — whether it succeeded or failed — equals the
environment before. -/
theorem from_env_reads_only (env : Env) : (fromEnvM env).2 = env := by
  unfold fromEnvM
  simp only [EnvM.bind]
  rw [firstNonEmpty_env keyVarNames env]
  cases hv : (firstNonEmpty keyVarNames env).1 with
  | none => rfl
  | some k =>
      simp only [EnvM.bind]
      rw [firstNonEmpty_env secretVarNames env]
      cases hw : (firstNonEmpty secretVarNames env).1 <;> rfl

/-- C10: the package's declared public surface is exactly the three
names CloudClient, RedisCloudError and __version__, the latter bound to
a string; no other name is part of the public interface. -/
theorem module_exports_exact :
    moduleAll = ["CloudClient", "RedisCloudError", "__version__"] ∧
    exportKind "__version__" = some .stringKind ∧
    (∀ n, n ∈ moduleAll ↔ exportKind n ≠ none) := by
  refine ⟨rfl, rfl, fun n => ?_⟩
  by_cases h1 : n = "CloudClient"
  · simp [moduleAll, exportKind, h1]
  by_cases h2 : n = "RedisCloudError"
  · simp [moduleAll, exportKind, h2]
  by_cases h3 : n = "__version__"
  · simp [moduleAll, exportKind, h3]
  · simp [moduleAll, exportKind, h1, h2, h3]

end RedisCloud
